import Mathlib

/-!
Verification of the driver/layer discovery and resolution engine of the
`via` diagnostic tool (source: `src/via/via.cpp`), against its
natural-language specification.

The source is embedded shallowly: C strings become `List Char`, the
environment (`getenv`) becomes a function `List Char → Option (List Char)`,
JSON documents (jsoncpp `Json::Value`) become the inductive `JsonValue`,
the current calendar time (read by `checkExpiration` via `time`/`localtime`)
becomes an explicit parameter, and filesystem / dynamic-loader probes
(`access`, `dlopen`, `ldconfig`) become an explicit record of oracles.
Buffer truncation at `MAX_STRING_LENGTH` (1024) and undefined behavior on
unterminated buffers are not modelled; all concrete inputs used below are
far below those limits, where the C behavior is well defined.
-/

namespace Via

/-! ## C string helpers -/

/-- Reading character `i` of a C string: index `s.length` is the NUL
terminator, modelled as the character with code 0 (`charAt` is used only at
indexes the source itself reads, i.e. at most one past a parsed prefix). -/
def charAt (s : List Char) (i : Nat) : Char := s.getD i (Char.ofNat 0)

/-- The prefix of `s` up to and including the last occurrence of `c`
(`none` when `c` does not occur).  Models `strrchr(s, c)` followed by
`*(ptr + 1) = 0`, the idiom at via.cpp:575-582 and 596-603. -/
def keepThroughLast (c : Char) : List Char → Option (List Char)
  | [] => none
  | x :: xs =>
    match keepThroughLast c xs with
    | some t => some (x :: t)
    | none => if x = c then some [x] else none

/-- via.cpp:575-582 (also 596-603): look for the last backslash; if there is
none, the last forward slash; if one was found, terminate the string just
after it; otherwise leave the string unchanged. -/
def truncAfterLastSep (s : List Char) : List Char :=
  match keepThroughLast '\\' s with
  | some t => t
  | none =>
    match keepThroughLast '/' s with
    | some t => t
    | none => s

/-- Whitespace test (`isspace`) for the characters C's `atoi` skips. -/
def isSpaceChar (c : Char) : Bool :=
  c = ' ' || c = '\t' || c = '\n' || c = '\x0b' || c = '\x0c' || c = '\r'

/-- Value of the leading decimal-digit run of `s`, accumulated onto `acc`
(the digit loop inside C `atoi`). -/
def leadingDigitsVal : List Char → Nat → Nat
  | c :: rest, acc =>
    if c.isDigit then leadingDigitsVal rest (acc * 10 + (c.toNat - '0'.toNat)) else acc
  | [], acc => acc

/-- C `atoi`: skip leading whitespace, optional sign, then the longest
leading digit run; no digits yields 0.  (Overflow of `int` is undefined
behavior in C and is not modelled; every use below is on short strings.) -/
def atoi (s : List Char) : Int :=
  match s.dropWhile isSpaceChar with
  | '-' :: rest => -(leadingDigitsVal rest 0 : Int)
  | '+' :: rest => (leadingDigitsVal rest 0 : Int)
  | s1 => (leadingDigitsVal s1 0 : Int)

/-! ## PathResolver: GenerateLibraryPath (via.cpp:563-615) -/

/-- via.cpp:592-604: consume leading `../` or `..\` segments of the library
reference; for each one, apply the "go up a folder" truncation
(`truncAfterLastSep`) to the base path.  Returns the remaining reference
and the updated base path. -/
def stripParentSegs : List Char → List Char → List Char × List Char
  | '.' :: '.' :: c :: rest, path =>
    if c = '\\' || c = '/' then stripParentSegs rest (truncAfterLastSep path)
    else ('.' :: '.' :: c :: rest, path)
  | l, path => (l, path)

/-- via.cpp:605-607: consume leading `./` or `.\` segments. -/
def stripCurrentSegs : List Char → List Char
  | '.' :: c :: rest =>
    if c = '\\' || c = '/' then stripCurrentSegs rest else '.' :: c :: rest
  | l => l

/-- via.cpp:563-615 `GenerateLibraryPath`.  The NULL-argument guard
(returning false) cannot arise in the embedding, and truncation to
`max_length` is not modelled (inputs below stay far under 1024), so the
function is total and returns the written `library_location`. -/
def GenerateLibraryPath (json_location library_info : List Char) : List Char :=
  -- Remove json file from json path to get just the file base location
  let final_path := truncAfterLastSep json_location
  -- Determine if the library is relative or absolute
  if charAt library_info 0 = '\\' || charAt library_info 0 = '/' ||
      charAt library_info 1 = ':' then
    library_info
  else
    let sp := stripParentSegs library_info final_path
    sp.2 ++ stripCurrentSegs sp.1

/-! ## JSON documents (jsoncpp `Json::Value`) -/

/-- Shallow model of a parsed jsoncpp `Json::Value`.  Objects keep their
members in iteration order (jsoncpp iterates objects in key order; the
member list of the embedding is taken to be already in that order). -/
inductive JsonValue where
  | null
  | str (s : List Char)
  | arr (elems : List JsonValue)
  | obj (members : List (List Char × JsonValue))

/-- Indexing `root[key]` on a jsoncpp value: member lookup on objects, `nullValue`
for an absent member or a non-object receiver. -/
def JsonValue.member (v : JsonValue) (key : List Char) : JsonValue :=
  match v with
  | .obj ms =>
    match ms.lookup key with
    | some w => w
    | none => .null
  | _ => .null

def JsonValue.isNull : JsonValue → Bool
  | .null => true
  | _ => false

/-- Conversion `asString` as used by the source (always on string values there;
non-string receivers are given the empty string). -/
def JsonValue.asString : JsonValue → List Char
  | .str s => s
  | _ => []

/-- Key of the first member visited by a `Json::Value::iterator` loop over
`v` that `continue`s on null keys and `break`s after the first hit: for an
object this is its first key (object keys are never null in jsoncpp); for
null, strings and arrays the loops at via.cpp:4712 and 4738 never bind a
key (scalar iteration is empty, and manifests use objects here). -/
def JsonValue.firstMemberKey : JsonValue → Option (List Char)
  | .obj ((k, _) :: _) => some k
  | _ => none

/-! ## EnablementEvaluator: enable/disable toggles (via.cpp:4710-4758) -/

/-- Snapshot of `getenv`. -/
abbrev Environment := List Char → Option (List Char)

/-- The value the 16-byte stack buffer receives from
`strncpy(buf, value, 15); buf[15] = 0` (via.cpp:4724-4725, 4748-4749):
the first 15 characters of the variable's value. -/
def envBufCopy (v : List Char) : List Char := v.take 15

/-- The integer the source reads from toggle variable `key`:
`atoi` of the truncated buffer, with an unset variable acting as 0
(the `atoi` call is guarded by `getenv != NULL`). -/
def parsedToggleValue (env : Environment) (key : List Char) : Int :=
  match env key with
  | none => 0
  | some v => atoi (envBufCopy v)

/-- via.cpp:4710-4734, the `enable_environment` block.  Result:
(enabled, enable_var_set, enable_env_variable).  `enabled` enters as `true`
(via.cpp:4675); declaring an enable toggle flips the default to `false`
before the variable is consulted (via.cpp:4718). -/
def enableStage (enable : JsonValue) (env : Environment) :
    Bool × Bool × List Char :=
  match enable.firstMemberKey with
  | none => (true, false, "--NONE--".data)
  | some key =>
    match env key with
    | none => (false, false, key)
    | some v =>
      if atoi (envBufCopy v) ≠ 0 then (true, true, key) else (false, false, key)

/-- via.cpp:4736-4758, the `disable_environment` block.  Takes the enabled
state left by the enable stage; the disable variable must parse strictly
greater than zero to force `enabled = false`. -/
def disableStage (disable : JsonValue) (env : Environment) (enabled0 : Bool) :
    Bool × Bool × List Char :=
  match disable.firstMemberKey with
  | none => (enabled0, false, "--NONE--".data)
  | some key =>
    match env key with
    | none => (enabled0, false, key)
    | some v =>
      if atoi (envBufCopy v) > 0 then (false, true, key) else (enabled0, false, key)

/-- Result of the two toggle blocks of `PrintImplicitLayerJsonInfo`, before
the expiration block runs. -/
structure ToggleResult where
  enabled : Bool
  enable_var_set : Bool
  enable_env_variable : List Char
  disable_var_set : Bool
  disable_env_variable : List Char

/-- via.cpp:4675-4758 up to (not including) the expiration block: the
enable stage on `root["layer"]["enable_environment"]`, then the disable
stage on `root["layer"]["disable_environment"]`. -/
def toggleEval (root : JsonValue) (env : Environment) : ToggleResult :=
  let en := enableStage ((root.member "layer".data).member "enable_environment".data) env
  let dis := disableStage ((root.member "layer".data).member "disable_environment".data) env en.1
  { enabled := dis.1
    enable_var_set := en.2.1
    enable_env_variable := en.2.2
    disable_var_set := dis.2.1
    disable_env_variable := dis.2.2 }

/-! ## EnablementEvaluator: expiration (via.cpp:4625-4665, 4760-4821) -/

/-- via.cpp:4625-4631 `struct override_expiration` (uint16 year, uint8
month/day/hour/minute). -/
structure override_expiration where
  year : Nat
  month : Nat
  day : Nat
  hour : Nat
  minute : Nat
deriving DecidableEq

/-- C conversion of an `int` to `uint16_t` (reduction modulo 2^16). -/
def truncU16 (i : Int) : Nat := (i % 65536).toNat

/-- C conversion of an `int` to `uint8_t` (reduction modulo 2^8). -/
def truncU8 (i : Int) : Nat := (i % 256).toNat

/-- via.cpp:4633-4665 `checkExpiration`.  The current calendar time (read
from `GetSystemTime` on Windows, `localtime` elsewhere) is passed in
explicitly as `now`.  Note the comparison is a disjunction of per-component
`>` tests, and the returned flag is named `still_valid` in the source. -/
def checkExpiration (expiration now : override_expiration) : Bool :=
  decide (expiration.year > now.year) || decide (expiration.month > now.month) ||
    decide (expiration.day > now.day) || decide (expiration.hour > now.hour) ||
    decide (expiration.minute > now.minute)

/-- via.cpp:4775-4793: store the `cur_item`-th dash-separated field. -/
def setExpirationField (e : override_expiration) (idx : Nat) (v : Int) :
    override_expiration :=
  match idx with
  | 0 => { e with year := truncU16 v }
  | 1 => { e with month := truncU8 v }
  | 2 => { e with day := truncU8 v }
  | 3 => { e with hour := truncU8 v }
  | 4 => { e with minute := truncU8 v }
  | _ => e

/-- Split on `-`, mirroring the repeated `strchr`/truncate walk of
via.cpp:4768-4799.  Always returns at least one (possibly empty) token. -/
def splitOnDash : List Char → List (List Char)
  | [] => [[]]
  | c :: rest =>
    if c = '-' then [] :: splitOnDash rest
    else
      match splitOnDash rest with
      | t :: ts => (c :: t) :: ts
      | [] => [[c]]

/-- via.cpp:4771-4799, the parsing loop.  `tok` is the segment `cur_start`
points at and `rest` the segments still separated by later dashes.  The
loop guard `strlen(cur_start)` sees the suffix from `cur_start` on (only
earlier dashes have been overwritten by NUL), which is empty exactly when
`tok` is empty and no segment follows.  When no further dash exists
(`rest = []`), `cur_start` is not advanced, so the last segment is parsed
again into each remaining field.  The `cur_item < 5` half of the guard is
carried structurally as the fuel argument `5 - idx`: the loop is entered
with `idx = 0` and fuel 5, and fuel 0 is exactly `idx = 5`. -/
def expirationLoop : Nat → Nat → override_expiration → List Char →
    List (List Char) → override_expiration
  | _, 0, e, _, _ => e
  | idx, fuel + 1, e, tok, rest =>
    if tok ≠ [] ∨ rest ≠ [] then
      let e1 := setExpirationField e idx (atoi tok)
      match rest with
      | [] => expirationLoop (idx + 1) fuel e1 tok []
      | t :: ts => expirationLoop (idx + 1) fuel e1 t ts
    else e

/-- via.cpp:4763-4800: the expiration struct produced from the (16
character) date string; all fields stay zero when the string contains no
dash. -/
def parseExpiration (s : List Char) : override_expiration :=
  if s.contains '-' then
    match splitOnDash s with
    | t :: ts => expirationLoop 0 5 ⟨0, 0, 0, 0, 0⟩ t ts
    | [] => ⟨0, 0, 0, 0, 0⟩
  else ⟨0, 0, 0, 0, 0⟩

/-! ## PrintImplicitLayerJsonInfo (via.cpp:4674-4851) -/

/-- The observable outcome of `PrintImplicitLayerJsonInfo` for one layer:
the final `enabled`/`expired` flags feeding the "Enabled State" row, and
whether the "Expiration" row was emitted. -/
structure ImplicitLayerOutcome where
  enabled : Bool
  expired : Bool
  expirationRowPrinted : Bool
  toggles : ToggleResult

/-- The state cell printed at via.cpp:4829. -/
inductive EnabledState where
  | ENABLED
  | DISABLED
  | EXPIRED
deriving DecidableEq

/-- via.cpp:4674-4830, reduced to its state computation: toggles first,
then the expiration block, which runs only when
`root["layer"]["expiration"]` is non-null and the date string has exactly
16 characters; inside it, when the layer is still enabled, the source
assigns `expired = checkExpiration(expiration)` and `enabled = expired`
(via.cpp:4801-4804). -/
def PrintImplicitLayerJsonInfo (root : JsonValue) (env : Environment)
    (now : override_expiration) : ImplicitLayerOutcome :=
  let t := toggleEval root env
  let expiration_json := (root.member "layer".data).member "expiration".data
  if expiration_json.isNull then
    { enabled := t.enabled, expired := false, expirationRowPrinted := false, toggles := t }
  else
    let s := expiration_json.asString
    if s.length = 16 then
      let expiration := parseExpiration s
      if t.enabled then
        let expired := checkExpiration expiration now
        { enabled := expired, expired := expired, expirationRowPrinted := true, toggles := t }
      else
        { enabled := t.enabled, expired := false, expirationRowPrinted := true, toggles := t }
    else
      { enabled := t.enabled, expired := false, expirationRowPrinted := false, toggles := t }

/-- via.cpp:4829: `expired ? "EXPIRED" : (enabled ? "ENABLED" : "DISABLED")`. -/
def reportedState (o : ImplicitLayerOutcome) : EnabledState :=
  if o.expired then .EXPIRED else if o.enabled then .ENABLED else .DISABLED

/-! ## Spec-side EnablementEvaluator (spec.md section 4.5, rules 1-3)

`specToggleState` is written from the specification's words, to be compared
against the source-derived `toggleEval` (claim C7).  A toggle counts as
declared when the manifest names an environment variable for it; the shared
`parsedToggleValue` gives the lenient integer reading of the variable
(absent parses as zero). -/

/-- Rules 1-3 of spec.md section 4.5: default `Enabled` unless an
enable toggle is declared (then `Disabled`); if the enable variable parses
nonzero the state becomes `Enabled`; afterwards, independently, if the
disable variable parses greater than zero the state becomes `Disabled`. -/
def specToggleState (root : JsonValue) (env : Environment) : Bool :=
  let enableKey := ((root.member "layer".data).member "enable_environment".data).firstMemberKey
  let disableKey := ((root.member "layer".data).member "disable_environment".data).firstMemberKey
  let st1 :=
    match enableKey with
    | none => true
    | some _ => false
  let st2 :=
    match enableKey with
    | none => st1
    | some k => if parsedToggleValue env k ≠ 0 then true else st1
  match disableKey with
  | none => st2
  | some k => if parsedToggleValue env k > 0 then false else st2

/-! ## ManifestStore / LibraryProbe / DiscoveryAggregator for drivers
(via.cpp:3005-3378) -/

/-- External probes consumed by `ReadDriverJson`:
`access(path, R_OK) != -1`; `FindLinuxSystemObject` (returning the location
it reports on success); the first line produced by the
`/sbin/ldconfig ... | grep <name>` fallback pipe, if any; and
`VerifyOpen` (via.cpp:3005-3015), the `dlopen`/`dlclose` probe. -/
structure DriverProbe where
  access : List Char → Bool
  findLinuxSystemObject : List Char → Option (List Char)
  ldconfigLine : List Char → Option (List Char)
  verifyOpen : List Char → Bool

/-- Outcome of one `ReadDriverJson` call (via.cpp:3017-3205): the returned
`found_json`, the by-reference `found_lib` (never cleared, only set), the
loadability flag `could_load`, and whether the "ICD Section MISSING!" row
was printed. -/
structure ReadDriverJsonResult where
  found_json : Bool
  found_lib : Bool
  could_load : Bool
  icdSectionMissingRow : Bool

/-- via.cpp:3017-3205 `ReadDriverJson`, from the point where the document
parsed (file-open and parse failures are handled by the caller model below,
both returning `found_json = false` with `found_lib` untouched, exactly as
the early `goto out` paths do).  `found_lib0` is the incoming value of the
caller's `found_this_lib`, which the source never resets between calls. -/
def ReadDriverJson (cur_driver_json : List Char) (root : JsonValue)
    (found_lib0 : Bool) (probe : DriverProbe) : ReadDriverJsonResult :=
  if (root.member "ICD".data).isNull then
    { found_json := false, found_lib := found_lib0, could_load := true,
      icdSectionMissingRow := true }
  else
    if ((root.member "ICD".data).member "library_path".data).isNull then
      { found_json := true, found_lib := found_lib0, could_load := true,
        icdSectionMissingRow := false }
    else
      let driver_name := ((root.member "ICD".data).member "library_path".data).asString
      let full_driver_path := GenerateLibraryPath cur_driver_json driver_name
      -- via.cpp:3089-3099: generated path first, then the system-object
      -- lookup when the name has no '/'
      let step1 : Bool × Bool :=
        if probe.access full_driver_path then
          (true, probe.verifyOpen full_driver_path)
        else if ¬ driver_name.contains '/' then
          match probe.findLinuxSystemObject driver_name with
          | some location => (true, probe.verifyOpen location)
          | none => (found_lib0, true)
        else (found_lib0, true)
      -- via.cpp:3101-3130: ldconfig fallback, only when found_lib is still
      -- false
      let step2 : Bool × Bool :=
        if ¬ step1.1 then
          match probe.ldconfigLine driver_name with
          | some line => (true, probe.verifyOpen line)
          | none => step1
        else step1
      { found_json := true, found_lib := step2.1, could_load := step2.2,
        icdSectionMissingRow := false }

/-- One candidate driver manifest location, as enumerated by
`PrintDriverInfo` across the standard directories, `VK_DRIVERS_PATH` and
`VK_ICD_FILENAMES`: its path and its parse outcome (`none` when the file
could not be opened or failed to parse, via.cpp:3028-3045). -/
structure DriverCandidate where
  path : List Char
  root : Option JsonValue

/-- The scan loop of `PrintDriverInfo` (via.cpp:3259-3367): each candidate
goes through `ReadDriverJson`; a true return sets `found_json` and ORs the
persistent `found_this_lib` into `found_lib` (via.cpp:3307-3310).
State: (found_json, found_lib, found_this_lib). -/
def PrintDriverInfoLoop (probe : DriverProbe) :
    List DriverCandidate → Bool → Bool → Bool → Bool × Bool
  | [], found_json, found_lib, _ => (found_json, found_lib)
  | c :: rest, found_json, found_lib, found_this_lib =>
    match c.root with
    | none => PrintDriverInfoLoop probe rest found_json found_lib found_this_lib
    | some root =>
      let r := ReadDriverJson c.path root found_this_lib probe
      if r.found_json then
        PrintDriverInfoLoop probe rest true (found_lib || r.found_lib) r.found_lib
      else
        PrintDriverInfoLoop probe rest found_json found_lib r.found_lib

/-- via.cpp:99-121 `ErrorResults` (the constructors used by the claims,
with their numeric codes kept by `ErrorResults.code`). -/
inductive ErrorResults where
  | SUCCESSFUL
  | UNKNOWN_ERROR
  | SYSTEM_CALL_FAILURE
  | MISSING_DRIVER_REGISTRY
  | MISSING_DRIVER_JSON
  | DRIVER_JSON_PARSING_ERROR
  | MISSING_DRIVER_LIB
  | MISSING_LAYER_JSON
  | LAYER_JSON_PARSING_ERROR
  | MISSING_LAYER_LIB
deriving DecidableEq

def ErrorResults.code : ErrorResults → Int
  | .SUCCESSFUL => 0
  | .UNKNOWN_ERROR => -1
  | .SYSTEM_CALL_FAILURE => -2
  | .MISSING_DRIVER_REGISTRY => -20
  | .MISSING_DRIVER_JSON => -21
  | .DRIVER_JSON_PARSING_ERROR => -22
  | .MISSING_DRIVER_LIB => -23
  | .MISSING_LAYER_JSON => -24
  | .LAYER_JSON_PARSING_ERROR => -25
  | .MISSING_LAYER_LIB => -26

/-- via.cpp:3209-3378 `PrintDriverInfo`, reduced to its verdict: run the
scan loop over all candidates (initial state all-false, via.cpp:3211-3213)
and apply via.cpp:3371-3375. -/
def PrintDriverInfoVerdict (probe : DriverProbe) (cands : List DriverCandidate) :
    ErrorResults :=
  let r := PrintDriverInfoLoop probe cands false false false
  if ¬ r.1 then .MISSING_DRIVER_JSON
  else if ¬ r.2 then .MISSING_DRIVER_LIB
  else .SUCCESSFUL

/-- Whether a candidate counts toward `found_json`: it parsed and its
`ICD` section is present (via.cpp:3057-3066). -/
def countedAsFound (c : DriverCandidate) : Bool :=
  match c.root with
  | none => false
  | some root => ¬ (root.member "ICD".data).isNull

/-- Whether a candidate on its own sets `found_lib`: ICD section and
`library_path` present, and the resolved path exists, or the bare name is
locatable as a system object, or the ldconfig fallback yields a line.
`VerifyOpen` (loadability) plays no part. -/
def locatesLibrary (probe : DriverProbe) (c : DriverCandidate) : Bool :=
  match c.root with
  | none => false
  | some root =>
    if (root.member "ICD".data).isNull then false
    else if ((root.member "ICD".data).member "library_path".data).isNull then false
    else
      let driver_name := ((root.member "ICD".data).member "library_path".data).asString
      probe.access (GenerateLibraryPath c.path driver_name) ||
        (¬ driver_name.contains '/' &&
          (probe.findLinuxSystemObject driver_name).isSome) ||
        (probe.ldconfigLine driver_name).isSome

/-! ## Run-level result (via.cpp:279-368 `main`, via.cpp:2994-3002
`PrintSystemInfo`) -/

set_option linter.unusedVariables false in
/-- via.cpp:2995-2999: the five category passes of `PrintSystemInfo`, each
assigning its result to the same local `res`, whose final value is
returned. -/
def PrintSystemInfoVerdict (driver_res runtime_res sdk_res layer_res
    settings_res : ErrorResults) : ErrorResults :=
  let res := driver_res
  let res := runtime_res
  let res := sdk_res
  let res := layer_res
  let res := settings_res
  res

/-- via.cpp:279-368: `main` keeps the first non-successful result of
`PrintSystemInfo`, `PrintVulkanInfo`, `PrintTestResults` (each checked with
`goto out`) and exits with its integer code. -/
def mainResult (system_res vulkan_res test_res : ErrorResults) : ErrorResults :=
  if system_res ≠ .SUCCESSFUL then system_res
  else if vulkan_res ≠ .SUCCESSFUL then vulkan_res
  else test_res

/-! ## SettingsFileReader (via.cpp:4171-4281) -/

/-- via.cpp:4171-4181 `TrimWhitespace` with its default whitespace set
`" \t\n\r"` (via.cpp:142): drop characters of the set from both ends;
a string of only such characters trims to empty. -/
def TrimWhitespace (str : List Char) : List Char :=
  let ws := " \t\n\r".data
  ((str.dropWhile (fun c => ws.contains c)).reverse.dropWhile
    (fun c => ws.contains c)).reverse

/-- Position search (`std::string::find`) for a single character. -/
def findChar (c : Char) : List Char → Option Nat
  | [] => none
  | x :: xs => if x = c then some 0 else (findChar c xs).map (· + 1)

/-- One line of the settings file (via.cpp:4208-4242): skip it when blank
after trimming, when starting with '#', or when it has no '='; otherwise
split at the first '=', trim both sides, and split the key at its first
'.' — no dot puts the whole key in bucket `--None--`; with a dot, the text
before it (possibly empty) is the bucket. -/
def parseSettingsLine (line : List Char) :
    Option (List Char × List Char × List Char) :=
  let trimmed_line := TrimWhitespace line
  if trimmed_line.length = 0 || charAt trimmed_line 0 = '#' then none
  else
    match findChar '=' trimmed_line with
    | none => none
    | some equal_loc =>
      let before_equal := trimmed_line.take equal_loc
      let after_equal := trimmed_line.drop (equal_loc + 1)
      let value := TrimWhitespace after_equal
      let trimmed_setting := TrimWhitespace before_equal
      match findChar '.' trimmed_setting with
      | none => some ("--None--".data, trimmed_setting, value)
      | some period_loc =>
        some (trimmed_setting.take period_loc,
          trimmed_setting.drop (period_loc + 1), value)

/-- Bucket map used by via.cpp:4244-4254: per-bucket order is push-back
order.  (The source's `std::map` iterates buckets in key order when
printing; the claims only consult bucket contents, so buckets are kept here
in first-insertion order.) -/
def addSetting (m : List (List Char × List (List Char × List Char)))
    (layer : List Char) (pair : List Char × List Char) :
    List (List Char × List (List Char × List Char)) :=
  match m with
  | [] => [(layer, [pair])]
  | (k, v) :: rest =>
    if k = layer then (k, v ++ [pair]) :: rest
    else (k, v) :: addSetting rest layer pair

/-- Split on newline, mirroring the `getline` loop (via.cpp:4208-4210);
like the loop, a trailing newline contributes one final empty line, which
the blank-line skip then drops. -/
def splitLines : List Char → List (List Char)
  | [] => [[]]
  | c :: rest =>
    if c = '\n' then [] :: splitLines rest
    else
      match splitLines rest with
      | t :: ts => (c :: t) :: ts
      | [] => [[c]]

/-- via.cpp:4204-4255: the parse phase of `PrintSettingsJsonInfo`, as the
bucket map it accumulates. -/
def PrintSettingsJsonInfo (content : List Char) :
    List (List Char × List (List Char × List Char)) :=
  (splitLines content).foldl
    (fun m line =>
      match parseSettingsLine line with
      | none => m
      | some (layer, name, value) => addSetting m layer (name, value))
    []

/-! ## SourceEnumerator for explicit layers (via.cpp:3918-4128
`PrintLayerInfo`) -/

/-- Which block of `PrintLayerInfo` emitted an explicit-layer folder scan:
the override-paths block (via.cpp:4031-4044), the `VK_LAYER_PATH` block
(via.cpp:4046-4075), or the standard-paths block (via.cpp:4077-4123). -/
inductive ExplicitSource where
  | overridePath
  | vkLayerPath
  | standardPath
deriving DecidableEq

/-- The `layer.override_paths` entries collected from one implicit layer's
manifest (via.cpp:4688-4701): pushed only when the member is a non-null
array. -/
def overridePathsOf (root : JsonValue) : List (List Char) :=
  match (root.member "layer".data).member "override_paths".data with
  | .arr elems => elems.map JsonValue.asString
  | _ => []

/-- Split on ':' (every field, including empty ones). -/
def splitColonRaw : List Char → List (List Char)
  | [] => [[]]
  | c :: rest =>
    if c = ':' then [] :: splitColonRaw rest
    else
      match splitColonRaw rest with
      | t :: ts => (c :: t) :: ts
      | [] => [[c]]

/-- The `strtok(value, ":")` driven loop over an environment value
(via.cpp:4050-4070): `strtok` skips runs of delimiters, so the loop visits
exactly the nonempty colon-separated tokens. -/
def strtokColon (s : List Char) : List (List Char) :=
  (splitColonRaw s).filter (fun t => ¬ t.isEmpty)

/-- The five fixed explicit-layer directories of via.cpp:4086-4120, with
the `HOME` fallback of case 4. -/
def standardExplicitLayerDirs (home : Option (List Char)) : List (List Char) :=
  ["/etc/vulkan/explicit_layer.d".data,
    "/usr/share/vulkan/explicit_layer.d".data,
    "/usr/local/etc/vulkan/explicit_layer.d".data,
    "/usr/local/share/vulkan/explicit_layer.d".data,
    match home with
    | none => "~/.local/share/vulkan/explicit_layer.d".data
    | some h => h ++ "/.local/share/vulkan/explicit_layer.d".data]

/-- Scans issued by the override-paths block (via.cpp:4031-4044): one
`PrintExplicitLayersInFolder` call per accumulated override path, in
order. -/
def overrideScanEntries (override_search_paths : List (List Char)) :
    List (ExplicitSource × List Char) :=
  override_search_paths.map (fun p => (ExplicitSource.overridePath, p))

/-- Scans issued by the `VK_LAYER_PATH` block (via.cpp:4046-4075): one call
per `strtok` token, or one call on the whole value when `strtok` returns
NULL immediately. -/
def vkLayerPathScanEntries (vk_layer_path : Option (List Char)) :
    List (ExplicitSource × List Char) :=
  match vk_layer_path with
  | none => []
  | some v =>
    match strtokColon v with
    | [] => [(ExplicitSource.vkLayerPath, v)]
    | toks => toks.map (fun p => (ExplicitSource.vkLayerPath, p))

/-- Scans issued by the standard-paths block (via.cpp:4077-4123). -/
def standardScanEntries (home : Option (List Char)) :
    List (ExplicitSource × List Char) :=
  (standardExplicitLayerDirs home).map (fun p => (ExplicitSource.standardPath, p))

/-- The ordered sequence of folder scans the explicit-layer phase of
`PrintLayerInfo` performs, tagged by the block that issued them: override
paths accumulated by the implicit pass first, then `VK_LAYER_PATH` entries,
then the standard directories. -/
def explicitLayerScanOrder (override_search_paths : List (List Char))
    (vk_layer_path : Option (List Char)) (home : Option (List Char)) :
    List (ExplicitSource × List Char) :=
  overrideScanEntries override_search_paths ++
    vkLayerPathScanEntries vk_layer_path ++ standardScanEntries home

/-! ## Concrete inputs used by the closed theorems below -/

/-- An environment with no variables set. -/
def emptyEnvironment : Environment := fun _ => none

/-- A fixed current calendar time: 2025-10-12 03:04. -/
def exampleNow : override_expiration := ⟨2025, 10, 12, 3, 4⟩

/-- Implicit-layer manifest with no toggles and an expiration entirely in
the past of `exampleNow`. -/
def exampleLayerPastExpiration : JsonValue :=
  .obj [("layer".data, .obj [("expiration".data, .str "2000-01-01-00-00".data)])]

/-- Implicit-layer manifest with no toggles and an expiration entirely in
the future of `exampleNow`. -/
def exampleLayerFutureExpiration : JsonValue :=
  .obj [("layer".data, .obj [("expiration".data, .str "3000-01-01-00-00".data)])]

/-- Implicit-layer manifest with a disable toggle and a past expiration. -/
def exampleLayerDisabledPastExpiration : JsonValue :=
  .obj [("layer".data, .obj
    [("disable_environment".data, .obj [("VK_EXAMPLE_DISABLE".data, .str "1".data)]),
      ("expiration".data, .str "2000-01-01-00-00".data)])]

/-- Environment setting the example disable variable to "1". -/
def exampleDisableEnvironment : Environment :=
  fun k => if k = "VK_EXAMPLE_DISABLE".data then some "1".data else none

/-- Implicit-layer manifest whose expiration string has 10 characters
rather than 16. -/
def exampleLayerShortExpiration : JsonValue :=
  .obj [("layer".data, .obj [("expiration".data, .str "2000-01-01".data)])]

/-- Driver manifest that parses but has no `ICD` section. -/
def exampleDriverNoIcd : JsonValue :=
  .obj [("file_format_version".data, .str "1.0.0".data)]

/-- Driver manifest with an `ICD` section and a library reference. -/
def exampleDriverWithLib : JsonValue :=
  .obj [("ICD".data, .obj
    [("api_version".data, .str "1.0.68".data),
      ("library_path".data, .str "./libexample_icd.so".data)])]

/-- Probe on a system where nothing exists, nothing is locatable and
nothing loads. -/
def probeNothingFound : DriverProbe :=
  { access := fun _ => false
    findLinuxSystemObject := fun _ => none
    ldconfigLine := fun _ => none
    verifyOpen := fun _ => false }

/-- Probe on a system where every resolved path exists but no library can
be dynamically loaded (`dlopen` always fails). -/
def probeLocatedUnloadable : DriverProbe :=
  { access := fun _ => true
    findLinuxSystemObject := fun _ => none
    ldconfigLine := fun _ => none
    verifyOpen := fun _ => false }

/-- The settings-file input named by claim C6. -/
def exampleSettingsInput : List Char :=
  "# comment\n\nLayerA.setting1 = true\nbadline\nLayerA.setting2=42\n.globalOnly = x\n".data

/-- A one-element override-path accumulation. -/
def exampleOverridePaths : List (List Char) := ["/opt/override_layers".data]

end Via

/-! ## Helper lemmas -/

/-- Unfolded success shape of `ReadDriverJson` when the `ICD` section is
missing: the manifest is reported (marker row) but not counted, and the
by-reference `found_lib` is untouched. -/
theorem readDriverJson_noIcd (path : List Char) (root : Via.JsonValue)
    (fl0 : Bool) (probe : Via.DriverProbe)
    (h : (root.member "ICD".data).isNull = true) :
    Via.ReadDriverJson path root fl0 probe =
      { found_json := false, found_lib := fl0, could_load := true,
        icdSectionMissingRow := true } := by
  simp [Via.ReadDriverJson, h]

/-! ## Claims -/

/-- C1: for an implicit layer whose pre-expiration state is `Enabled` and
whose declared expiration is not after the current time, the claim says the
evaluated state is `Expired`.  The source instead assigns the return of
`checkExpiration` — a flag its own body names `still_valid` — to the
variable `expired` and copies it into `enabled` (via.cpp:4801-4804), so a
layer whose expiration lies entirely in the past is reported `DISABLED`
(first conjunct), while a layer whose expiration lies entirely in the
future is reported `EXPIRED` (third conjunct).  The second conjunct records
that the pre-expiration state of the failing input is `Enabled`. -/
theorem claim_C1_expiration_state_inversion :
    Via.reportedState (Via.PrintImplicitLayerJsonInfo
        Via.exampleLayerPastExpiration Via.emptyEnvironment Via.exampleNow) =
      Via.EnabledState.DISABLED ∧
    (Via.toggleEval Via.exampleLayerPastExpiration Via.emptyEnvironment).enabled = true ∧
    Via.reportedState (Via.PrintImplicitLayerJsonInfo
        Via.exampleLayerFutureExpiration Via.emptyEnvironment Via.exampleNow) =
      Via.EnabledState.EXPIRED ∧
    Via.EnabledState.DISABLED ≠ Via.EnabledState.EXPIRED := by
  refine ⟨by decide, by decide, by decide, by decide⟩

/-- C2: the claim (and the spec's own example) says resolving "../../x"
against manifest path "/a/b/c/m.json" yields "/a/x".  In the source the
"go up a folder" step (via.cpp:595-603) truncates just *after* the last
separator, and after the first filename strip the base path already ends in
a separator, so ascending is a no-op: each leading "../" is consumed from
the reference but the base directory never changes, and the result is
"/a/b/c/x". -/
theorem claim_C2_parent_traversal_never_ascends :
    Via.GenerateLibraryPath "/a/b/c/m.json".data "../../x".data = "/a/b/c/x".data ∧
    "/a/b/c/x".data ≠ "/a/x".data := by
  refine ⟨by decide, by decide⟩

/-- C4: the claim says the run-level exit status is the worst category
verdict, with driver failures never masked.  In `PrintSystemInfo`
(via.cpp:2995-2999) each category pass overwrites the same local `res`, so
a `MISSING_DRIVER_JSON` verdict from the driver pass followed by successful
runtime/SDK/layer/settings passes leaves `res = SUCCESSFUL`, and `main`
exits 0. -/
theorem claim_C4_driver_failure_masked :
    Via.PrintSystemInfoVerdict Via.ErrorResults.MISSING_DRIVER_JSON
        .SUCCESSFUL .SUCCESSFUL .SUCCESSFUL .SUCCESSFUL = .SUCCESSFUL ∧
    (Via.mainResult
        (Via.PrintSystemInfoVerdict Via.ErrorResults.MISSING_DRIVER_JSON
          .SUCCESSFUL .SUCCESSFUL .SUCCESSFUL .SUCCESSFUL)
        .SUCCESSFUL .SUCCESSFUL).code = 0 ∧
    Via.ErrorResults.SUCCESSFUL ≠ Via.ErrorResults.MISSING_DRIVER_JSON := by
  refine ⟨by decide, by decide, by decide⟩

/-- C6 counterexample: on the claim's input the line ".globalOnly = x" has
a dot at position 0, so the text before the dot — the empty string, not
"--None--" — becomes the bucket: the "--None--" bucket does not exist and
the pair lands in the empty-named bucket. -/
theorem claim_C6_counterexample :
    (Via.PrintSettingsJsonInfo Via.exampleSettingsInput).lookup "--None--".data ≠
      some [("globalOnly".data, "x".data)] ∧
    (Via.PrintSettingsJsonInfo Via.exampleSettingsInput).lookup "--None--".data = none ∧
    (Via.PrintSettingsJsonInfo Via.exampleSettingsInput).lookup ([] : List Char) =
      some [("globalOnly".data, "x".data)] := by
  refine ⟨by decide, by decide, by decide⟩

/-- C6 as amended: the parser skips the comment, blank and "badline" lines,
produces bucket "LayerA" with [(setting1, true), (setting2, 42)] in order,
and puts (globalOnly, x) in the bucket named by the text before the first
dot — here the empty string; "--None--" is used only when no dot is
present.  The full bucket map is exactly these two buckets. -/
theorem claim_C6_settings_parse :
    Via.PrintSettingsJsonInfo Via.exampleSettingsInput =
      [("LayerA".data,
          [("setting1".data, "true".data), ("setting2".data, "42".data)]),
        (([] : List Char), [("globalOnly".data, "x".data)])] := by
  decide

/-- C8: an implicit layer whose pre-expiration state (the outcome of the
enable/disable toggle blocks) is disabled is reported `DISABLED` whatever
its expiration says — the expiration check at via.cpp:4801-4804 is guarded
by `if (enabled)`, so `expired` stays false and the state cell prints
"DISABLED". -/
theorem claim_C8_disabled_layer_never_expired (root : Via.JsonValue)
    (env : Via.Environment) (now : Via.override_expiration)
    (h : (Via.toggleEval root env).enabled = false) :
    Via.reportedState (Via.PrintImplicitLayerJsonInfo root env now) =
      Via.EnabledState.DISABLED := by
  unfold Via.PrintImplicitLayerJsonInfo Via.reportedState
  simp only [h]
  split
  · simp
  · split
    · simp
    · simp

/-- Witness for C8: the disable toggle of `exampleLayerDisabledPastExpiration`
is forced on by `exampleDisableEnvironment`, its expiration lies in the
past of `exampleNow`, and the layer is reported `DISABLED`. -/
theorem claim_C8_witness :
    Via.reportedState (Via.PrintImplicitLayerJsonInfo
        Via.exampleLayerDisabledPastExpiration Via.exampleDisableEnvironment
        Via.exampleNow) = Via.EnabledState.DISABLED :=
  claim_C8_disabled_layer_never_expired Via.exampleLayerDisabledPastExpiration
    Via.exampleDisableEnvironment Via.exampleNow (by decide)

/-- C10: when `root["layer"]["expiration"]` is a string whose length is not
exactly 16, the `strlen(date_copy) == 16` guard at via.cpp:4767 skips the
whole expiration block: no timestamp is parsed, no "Expiration" row is
printed, the enabled state is exactly what the toggle blocks computed, and
the reported state is never `EXPIRED`. -/
theorem claim_C10_non16_expiration_skipped (root : Via.JsonValue)
    (env : Via.Environment) (now : Via.override_expiration) (s : List Char)
    (hs : (root.member "layer".data).member "expiration".data = Via.JsonValue.str s)
    (hlen : s.length ≠ 16) :
    Via.PrintImplicitLayerJsonInfo root env now =
      { enabled := (Via.toggleEval root env).enabled, expired := false,
        expirationRowPrinted := false, toggles := Via.toggleEval root env } ∧
    Via.reportedState (Via.PrintImplicitLayerJsonInfo root env now) ≠
      Via.EnabledState.EXPIRED := by
  have h1 : Via.PrintImplicitLayerJsonInfo root env now =
      { enabled := (Via.toggleEval root env).enabled, expired := false,
        expirationRowPrinted := false, toggles := Via.toggleEval root env } := by
    unfold Via.PrintImplicitLayerJsonInfo
    simp only [hs]
    simp [Via.JsonValue.isNull, Via.JsonValue.asString, hlen]
  refine ⟨h1, ?_⟩
  rw [h1]
  unfold Via.reportedState
  simp only []
  split
  · simp_all
  · split <;> simp

/-- Witness for C10: a 10-character expiration string is ignored and the
toggle-determined state (here the default ENABLED) is reported. -/
theorem claim_C10_witness :
    Via.PrintImplicitLayerJsonInfo Via.exampleLayerShortExpiration
        Via.emptyEnvironment Via.exampleNow =
      { enabled := (Via.toggleEval Via.exampleLayerShortExpiration
          Via.emptyEnvironment).enabled,
        expired := false, expirationRowPrinted := false,
        toggles := Via.toggleEval Via.exampleLayerShortExpiration
          Via.emptyEnvironment } ∧
    Via.reportedState (Via.PrintImplicitLayerJsonInfo
        Via.exampleLayerShortExpiration Via.emptyEnvironment Via.exampleNow) ≠
      Via.EnabledState.EXPIRED :=
  claim_C10_non16_expiration_skipped Via.exampleLayerShortExpiration
    Via.emptyEnvironment Via.exampleNow "2000-01-01".data (by rfl) (by decide)

/-- C3 counterexample: a run whose only candidate parses but lacks the
`ICD` section yields `MISSING_DRIVER_JSON`, not the `MISSING_DRIVER_LIB`
the claim predicts — `found_json` is set only after the ICD-section check
(via.cpp:3057-3066), so such a manifest does not count as found.  The last
conjunct records that the "missing section" row is nevertheless printed. -/
theorem claim_C3_counterexample :
    Via.PrintDriverInfoVerdict Via.probeNothingFound
        [⟨"/etc/vulkan/icd.d/a.json".data, some Via.exampleDriverNoIcd⟩] =
      Via.ErrorResults.MISSING_DRIVER_JSON ∧
    Via.ErrorResults.MISSING_DRIVER_JSON ≠ Via.ErrorResults.MISSING_DRIVER_LIB ∧
    (Via.ReadDriverJson "/etc/vulkan/icd.d/a.json".data Via.exampleDriverNoIcd
        false Via.probeNothingFound).icdSectionMissingRow = true := by
  refine ⟨by decide, by decide, by decide⟩

/-- C3 as amended: a parseable driver manifest lacking the ICD section is
reported with the "missing section" marker but does not count as a found
manifest: `ReadDriverJson` returns false for it, and a run whose only
candidate is such a manifest yields `MISSING_DRIVER_JSON`. -/
theorem claim_C3_missing_icd_reported_not_counted (path : List Char)
    (root : Via.JsonValue) (fl0 : Bool) (probe : Via.DriverProbe)
    (h : (root.member "ICD".data).isNull = true) :
    (Via.ReadDriverJson path root fl0 probe).icdSectionMissingRow = true ∧
    (Via.ReadDriverJson path root fl0 probe).found_json = false ∧
    Via.PrintDriverInfoVerdict probe [⟨path, some root⟩] =
      Via.ErrorResults.MISSING_DRIVER_JSON := by
  have hr := readDriverJson_noIcd path root fl0 probe h
  have hr0 := readDriverJson_noIcd path root false probe h
  refine ⟨by rw [hr], by rw [hr], ?_⟩
  simp [Via.PrintDriverInfoVerdict, Via.PrintDriverInfoLoop, hr0]

/-- Witness for C3: the amended statement at the concrete ICD-less
manifest. -/
theorem claim_C3_witness :
    (Via.ReadDriverJson "/etc/vulkan/icd.d/b.json".data Via.exampleDriverNoIcd
        false Via.probeNothingFound).icdSectionMissingRow = true ∧
    (Via.ReadDriverJson "/etc/vulkan/icd.d/b.json".data Via.exampleDriverNoIcd
        false Via.probeNothingFound).found_json = false ∧
    Via.PrintDriverInfoVerdict Via.probeNothingFound
        [⟨"/etc/vulkan/icd.d/b.json".data, some Via.exampleDriverNoIcd⟩] =
      Via.ErrorResults.MISSING_DRIVER_JSON :=
  claim_C3_missing_icd_reported_not_counted "/etc/vulkan/icd.d/b.json".data
    Via.exampleDriverNoIcd false Via.probeNothingFound (by decide)

/-- C7: for every implicit-layer manifest and environment snapshot, the
enabled state left by the two toggle blocks equals the spec's rules 1-3:
default `Enabled` unless an enable toggle is declared (then `Disabled`);
the enable variable parsing nonzero makes it `Enabled`; afterwards and
independently, the disable variable parsing greater than zero makes it
`Disabled` — enable is evaluated first and the disable check last, so the
last matching rule wins. -/
theorem claim_C7_toggle_rules_last_wins (root : Via.JsonValue)
    (env : Via.Environment) :
    (Via.toggleEval root env).enabled = Via.specToggleState root env := by
  unfold Via.toggleEval Via.specToggleState Via.enableStage Via.disableStage
    Via.parsedToggleValue
  rcases hen : ((root.member "layer".data).member
      "enable_environment".data).firstMemberKey with _ | k1
  · rcases hdis : ((root.member "layer".data).member
        "disable_environment".data).firstMemberKey with _ | k2
    · rfl
    · rcases henv2 : env k2 with _ | v2
      · simp [henv2]
      · simp [henv2]
        split_ifs <;> simp_all
  · rcases henv1 : env k1 with _ | v1
    · rcases hdis : ((root.member "layer".data).member
          "disable_environment".data).firstMemberKey with _ | k2
      · simp [henv1]
      · rcases henv2 : env k2 with _ | v2
        · simp [henv1, henv2]
        · simp [henv1, henv2]
          split_ifs <;> simp_all
    · rcases hdis : ((root.member "layer".data).member
          "disable_environment".data).firstMemberKey with _ | k2
      · simp [henv1]
        split_ifs <;> simp_all
      · rcases henv2 : env k2 with _ | v2
        · simp [henv1, henv2]
          split_ifs <;> simp_all
        · simp [henv1, henv2]
          split_ifs <;> simp_all

/-- The return value of `ReadDriverJson` depends only on the presence of
the `ICD` section: `found_json` is set at via.cpp:3066, just after the
section check and before any library probing. -/
theorem readDriverJson_found_json (path : List Char) (root : Via.JsonValue)
    (fl0 : Bool) (probe : Via.DriverProbe) :
    (Via.ReadDriverJson path root fl0 probe).found_json =
      !(root.member "ICD".data).isNull := by
  unfold Via.ReadDriverJson
  split_ifs with h1 h2 <;> simp [h1]

/-- The by-reference `found_lib` after one `ReadDriverJson` call is its
incoming value ORed with the candidate's own pure location outcome: every
assignment to it (via.cpp:3092, 3096, 3126) sets it to true upon locating
the library, and `VerifyOpen` never feeds back into it. -/
theorem readDriverJson_found_lib (path : List Char) (root : Via.JsonValue)
    (fl0 : Bool) (probe : Via.DriverProbe) :
    (Via.ReadDriverJson path root fl0 probe).found_lib =
      (fl0 || Via.locatesLibrary probe ⟨path, some root⟩) := by
  by_cases h1 : (root.member "ICD".data).isNull = true
  · simp [Via.ReadDriverJson, Via.locatesLibrary, h1]
  · by_cases h2 : ((root.member "ICD".data).member "library_path".data).isNull = true
    · simp [Via.ReadDriverJson, Via.locatesLibrary, h1, h2]
    · rcases hacc : probe.access (Via.GenerateLibraryPath path
          (((root.member "ICD".data).member "library_path".data).asString)) with _ | _
      · by_cases hct : '/' ∈ (((root.member "ICD".data).member
            "library_path".data).asString)
        · rcases hld : probe.ldconfigLine
              (((root.member "ICD".data).member "library_path".data).asString) with _ | line
          · rcases fl0 <;>
              simp [Via.ReadDriverJson, Via.locatesLibrary, h1, h2, hacc, hct, hld]
          · rcases fl0 <;>
              simp [Via.ReadDriverJson, Via.locatesLibrary, h1, h2, hacc, hct, hld]
        · rcases hso : probe.findLinuxSystemObject
              (((root.member "ICD".data).member "library_path".data).asString) with _ | loc
          · rcases hld : probe.ldconfigLine
                (((root.member "ICD".data).member "library_path".data).asString) with _ | line
            · rcases fl0 <;>
                simp [Via.ReadDriverJson, Via.locatesLibrary, h1, h2, hacc, hct, hso, hld]
            · rcases fl0 <;>
                simp [Via.ReadDriverJson, Via.locatesLibrary, h1, h2, hacc, hct, hso, hld]
          · rcases fl0 <;>
              simp [Via.ReadDriverJson, Via.locatesLibrary, h1, h2, hacc, hct, hso]
      · simp [Via.ReadDriverJson, Via.locatesLibrary, h1, h2, hacc]

/-- Invariant of the `PrintDriverInfo` scan loop: starting from equal
`found_lib` and `found_this_lib`, it computes the OR of the per-candidate
counting and locating outcomes. -/
theorem printDriverInfoLoop_spec (probe : Via.DriverProbe) :
    ∀ (cands : List Via.DriverCandidate) (fj fl : Bool),
      Via.PrintDriverInfoLoop probe cands fj fl fl =
        (fj || cands.any Via.countedAsFound,
          fl || cands.any (Via.locatesLibrary probe)) := by
  intro cands
  induction cands with
  | nil =>
    intro fj fl
    simp [Via.PrintDriverInfoLoop]
  | cons c rest ih =>
    intro fj fl
    rcases c with ⟨path, root⟩
    rcases root with _ | root
    · simp [Via.PrintDriverInfoLoop, Via.countedAsFound, Via.locatesLibrary, ih]
    · by_cases hicd : (root.member "ICD".data).isNull = true
      · have hloc : Via.locatesLibrary probe ⟨path, some root⟩ = false := by
          simp [Via.locatesLibrary, hicd]
        simp [Via.PrintDriverInfoLoop, readDriverJson_found_json,
          readDriverJson_found_lib, hicd, hloc, ih, Via.countedAsFound]
      · have hcnt : Via.countedAsFound ⟨path, some root⟩ = true := by
          simp [Via.countedAsFound, hicd]
        simp [Via.PrintDriverInfoLoop, readDriverJson_found_json,
          readDriverJson_found_lib, hicd, hcnt, ih, Bool.or_assoc]

/-- C5 counterexample, refuting both characterizations at concrete runs.
Run 1: the only candidate parses, its resolved library exists
(`access` succeeds) but `dlopen` fails on everything — so zero libraries
are "resolved and loadable", yet the verdict is `SUCCESSFUL`, not the
`MISSING_DRIVER_LIB` the claim requires: `found_lib` is set on existence
alone (via.cpp:3091-3092), before `VerifyOpen` runs.  Run 2: the only
candidate parses but lacks the ICD section — a manifest did parse, yet the
verdict is `MISSING_DRIVER_JSON`, against the claim's "exactly when zero
manifests parsed". -/
theorem claim_C5_counterexample :
    Via.PrintDriverInfoVerdict Via.probeLocatedUnloadable
        [⟨"/etc/vulkan/icd.d/c.json".data, some Via.exampleDriverWithLib⟩] =
      Via.ErrorResults.SUCCESSFUL ∧
    Via.ErrorResults.SUCCESSFUL ≠ Via.ErrorResults.MISSING_DRIVER_LIB ∧
    Via.PrintDriverInfoVerdict Via.probeNothingFound
        [⟨"/etc/vulkan/icd.d/c.json".data, some Via.exampleDriverNoIcd⟩] =
      Via.ErrorResults.MISSING_DRIVER_JSON := by
  refine ⟨by decide, by decide, by decide⟩

/-- C5 as amended: the verdict is `MISSING_DRIVER_JSON` exactly when no
candidate both parsed and carried the ICD section, and `MISSING_DRIVER_LIB`
exactly when at least one did but no candidate's library reference was
located (existing at the resolved path, found as a bare system object, or
found by the ldconfig fallback) — whether a located library is dynamically
loadable does not enter the verdict. -/
theorem claim_C5_driver_verdicts (probe : Via.DriverProbe)
    (cands : List Via.DriverCandidate) :
    (Via.PrintDriverInfoVerdict probe cands = Via.ErrorResults.MISSING_DRIVER_JSON ↔
      cands.any Via.countedAsFound = false) ∧
    (Via.PrintDriverInfoVerdict probe cands = Via.ErrorResults.MISSING_DRIVER_LIB ↔
      (cands.any Via.countedAsFound = true ∧
        cands.any (Via.locatesLibrary probe) = false)) := by
  unfold Via.PrintDriverInfoVerdict
  rw [printDriverInfoLoop_spec]
  rcases h1 : cands.any Via.countedAsFound <;>
    rcases h2 : cands.any (Via.locatesLibrary probe) <;> simp

/-- Index upper bound: an element of `l1 ++ l2` carrying a tag no element
of `l2` carries must sit at an index inside `l1`. -/
theorem scanOrder_tag_lt (tag : Via.ExplicitSource) :
    ∀ (l1 l2 : List (Via.ExplicitSource × List Char)),
      (∀ x ∈ l2, x.1 ≠ tag) →
      ∀ (i : Nat) (x : Via.ExplicitSource × List Char),
        (l1 ++ l2).get? i = some x → x.1 = tag → i < l1.length := by
  intro l1
  induction l1 with
  | nil =>
    intro l2 h2 i x hget hx
    exact absurd hx (h2 x (List.get?_mem hget))
  | cons a l1 ih =>
    intro l2 h2 i x hget hx
    cases i with
    | zero => simp
    | succ n =>
      have hlt := ih l2 h2 n x (by simpa using hget) hx
      simpa using Nat.succ_lt_succ hlt

/-- Index lower bound: an element of `l1 ++ l2` carrying a tag no element
of `l1` carries must sit at an index past `l1`. -/
theorem scanOrder_tag_ge (tag : Via.ExplicitSource) :
    ∀ (l1 l2 : List (Via.ExplicitSource × List Char)),
      (∀ x ∈ l1, x.1 ≠ tag) →
      ∀ (j : Nat) (y : Via.ExplicitSource × List Char),
        (l1 ++ l2).get? j = some y → y.1 = tag → l1.length ≤ j := by
  intro l1
  induction l1 with
  | nil =>
    intro l2 h1 j y hget hy
    exact Nat.zero_le j
  | cons a l1 ih =>
    intro l2 h1 j y hget hy
    cases j with
    | zero =>
      have hya : a = y := by simpa using hget
      subst hya
      exact absurd hy (h1 a (List.mem_cons_self a l1))
    | succ n =>
      have hle := ih l2 (fun x hx => h1 x (List.mem_cons_of_mem a hx)) n y
        (by simpa using hget) hy
      simpa using Nat.succ_le_succ hle

/-- C9: when the implicit-layer pass accumulated a nonempty set of override
search paths, every folder scan the explicit-layer phase issues for an
override path precedes, in the emitted order, every scan of a fixed
well-known explicit-layer directory. -/
theorem claim_C9_override_scans_precede_standard (ov : List (List Char))
    (vk : Option (List Char)) (home : Option (List Char)) (hne : ov ≠ [])
    (i j : Nat) (x y : Via.ExplicitSource × List Char)
    (hix : (Via.explicitLayerScanOrder ov vk home).get? i = some x)
    (hjy : (Via.explicitLayerScanOrder ov vk home).get? j = some y)
    (hx : x.1 = Via.ExplicitSource.overridePath)
    (hy : y.1 = Via.ExplicitSource.standardPath) :
    i < j := by
  have hmemB : ∀ z ∈ Via.vkLayerPathScanEntries vk,
      z.1 = Via.ExplicitSource.vkLayerPath := by
    rcases vk with _ | v
    · intro z hz
      simp [Via.vkLayerPathScanEntries] at hz
    · rcases htok : Via.strtokColon v with _ | ⟨t, ts⟩
      · intro z hz
        simp [Via.vkLayerPathScanEntries, htok] at hz
        subst hz
        rfl
      · intro z hz
        simp only [Via.vkLayerPathScanEntries, htok] at hz
        rcases List.mem_map.mp hz with ⟨p, _, rfl⟩
        rfl
  have hmemBC : ∀ z ∈ Via.vkLayerPathScanEntries vk ++ Via.standardScanEntries home,
      z.1 ≠ Via.ExplicitSource.overridePath := by
    intro z hz
    rcases List.mem_append.mp hz with hz1 | hz2
    · rw [hmemB z hz1]
      intro hcon
      cases hcon
    · rcases List.mem_map.mp hz2 with ⟨p, _, rfl⟩
      intro hcon
      cases hcon
  have hmemAB : ∀ z ∈ Via.overrideScanEntries ov ++ Via.vkLayerPathScanEntries vk,
      z.1 ≠ Via.ExplicitSource.standardPath := by
    intro z hz
    rcases List.mem_append.mp hz with hz1 | hz2
    · rcases List.mem_map.mp hz1 with ⟨p, _, rfl⟩
      intro hcon
      cases hcon
    · rw [hmemB z hz2]
      intro hcon
      cases hcon
  have h1 : i < (Via.overrideScanEntries ov).length := by
    apply scanOrder_tag_lt Via.ExplicitSource.overridePath
      (Via.overrideScanEntries ov)
      (Via.vkLayerPathScanEntries vk ++ Via.standardScanEntries home)
      hmemBC i x _ hx
    rw [← List.append_assoc]
    exact hix
  have h2 : (Via.overrideScanEntries ov ++ Via.vkLayerPathScanEntries vk).length ≤ j :=
    scanOrder_tag_ge Via.ExplicitSource.standardPath _
      (Via.standardScanEntries home) hmemAB j y hjy hy
  have h3 : (Via.overrideScanEntries ov).length ≤
      (Via.overrideScanEntries ov ++ Via.vkLayerPathScanEntries vk).length := by
    simp
  omega

/-- Witness for C9: with one accumulated override path and no
`VK_LAYER_PATH`, the override scan sits at index 0 and the first standard
directory at index 1, and the theorem instantiates to 0 < 1. -/
theorem claim_C9_witness :
    (Via.explicitLayerScanOrder Via.exampleOverridePaths none none).get? 0 =
      some (Via.ExplicitSource.overridePath, "/opt/override_layers".data) ∧
    (0 : Nat) < 1 :=
  ⟨by rfl,
    claim_C9_override_scans_precede_standard Via.exampleOverridePaths none none
      (by decide) 0 1
      (Via.ExplicitSource.overridePath, "/opt/override_layers".data)
      (Via.ExplicitSource.standardPath, "/etc/vulkan/explicit_layer.d".data)
      (by rfl) (by rfl) (by rfl) (by rfl)⟩
